import Mathlib

/-!
Verification development for the restricted literature-search tool
(`literature_search_paper_aligned.py`).  The Python class
`RestrictedPaperSearcher` is shallowly embedded: its keyword taxonomy
becomes Lean list constants, the relevance classifier `is_relevant`
becomes a pure function threading the per-exclusion-term counter state
explicitly, the search loop becomes a fold over a stream of raw records,
and the paper parser / BibTeX exporter become Option-returning functions
(`none` models a caught exception, resp. an uncaught index error).
Python machine strings are modelled by Lean `String`; `str.lower` by the
character-wise ASCII lowering `strLower` (all inputs of interest are
ASCII); the substring test `kw in text` by an infix test on the
character lists.
-/

namespace LitSearch

/-- ASCII lower-casing, modelling Python `str.lower` on the ASCII inputs
of interest, computed on the character list so that it reduces. -/
def strLower (s : String) : String := String.mk (s.data.map Char.toLower)

/-- Character-list prefix test (needle, haystack). -/
def isPrefixCh : List Char → List Char → Bool
  | [], _ => true
  | _ :: _, [] => false
  | a :: as, b :: bs => a == b && isPrefixCh as bs

/-- Character-list infix test (needle, haystack). -/
def isInfixCh (needle : List Char) : List Char → Bool
  | [] => isPrefixCh needle []
  | b :: bs => isPrefixCh needle (b :: bs) || isInfixCh needle bs

/-- Python `needle in haystack` substring test. -/
def containsSub (haystack needle : String) : Bool :=
  isInfixCh needle.data haystack.data

/-- Python `any(m.lower() in text for m in kws)`. -/
def anyKw (kws : List String) (text : String) : Bool :=
  kws.any (fun m => containsSub text (strLower m))

/-- NDT methods discussed in the paper - CORE METHODS ONLY
(`RestrictedPaperSearcher.NDT_METHODS_CORE`). -/
def NDT_METHODS_CORE : List String := [
  "ultrasonic pulse velocity", "upv",
  "impact echo", "impact-echo",
  "phased array ultrasonic", "paut", "tofd",
  "ground penetrating radar", "gpr",
  "eddy current testing",
  "magnetic flux leakage",
  "half-cell potential", "half cell potential",
  "resistivity measurement", "wenner probe",
  "sonreb", "rebound hammer", "schmidt hammer",
  "pull-out test", "pullout test", "capo test", "lok test",
  "flat-jack", "flatjack",
  "resistance drilling", "resistograph",
  "magnetic particle testing", "dye penetrant",
  "visual grading",
  "infrared thermography",
  "non-destructive testing", "nondestructive testing",
  "non-destructive evaluation", "nondestructive evaluation"]

/-- Four structural material classes ONLY
(`RestrictedPaperSearcher.STRUCTURAL_MATERIALS`). -/
def STRUCTURAL_MATERIALS : List String := [
  "reinforced concrete", "rc structure", "rc beam", "rc column",
  "concrete bridge", "concrete building", "concrete structure",
  "prestressed concrete", "post-tensioned concrete",
  "structural steel", "steel structure", "steel bridge",
  "steel beam", "steel column", "steel connection",
  "timber structure", "timber beam", "timber building",
  "glulam", "laminated timber", "wood structure",
  "masonry structure", "masonry wall", "masonry building",
  "brick masonry", "stone masonry", "historic masonry",
  "heritage building", "unreinforced masonry"]

/-- Task 1: Geometry verification (`TASK_GEOMETRY`). -/
def TASK_GEOMETRY : List String := [
  "geometry verification", "geometric verification",
  "dimension measurement", "cross-section measurement",
  "reinforcement layout", "reinforcement mapping", "rebar detection",
  "cover depth", "concrete cover", "section geometry",
  "connection detail", "structural geometry",
  "thickness measurement", "section loss measurement"]

/-- Task 2: Strength estimation (`TASK_STRENGTH`). -/
def TASK_STRENGTH : List String := [
  "strength estimation", "strength assessment", "strength evaluation",
  "compressive strength", "tensile strength", "flexural strength",
  "characteristic strength", "characteristic value",
  "design value", "material strength", "load capacity",
  "residual strength", "in-situ strength",
  "strength prediction", "strength determination"]

/-- Task 3: Deterioration assessment (`TASK_DETERIORATION`). -/
def TASK_DETERIORATION : List String := [
  "deterioration assessment", "deterioration evaluation",
  "corrosion detection", "corrosion assessment", "corrosion rate",
  "decay assessment", "decay detection", "wood decay",
  "chemical attack", "sulfate attack", "alkali-silica reaction",
  "residual capacity", "degradation assessment",
  "carbonation depth", "chloride penetration", "chloride ingress",
  "service life", "durability assessment"]

/-- Task 4: Defect identification (`TASK_DEFECTS`). -/
def TASK_DEFECTS : List String := [
  "defect identification", "defect detection", "flaw detection",
  "crack detection", "crack mapping", "crack characterization",
  "void detection", "void identification", "honeycombing",
  "delamination detection", "delamination assessment",
  "hidden damage", "internal damage", "damage detection",
  "fire damage", "impact damage", "structural damage"]

/-- Task 5: Moisture condition (`TASK_MOISTURE`). -/
def TASK_MOISTURE : List String := [
  "moisture content", "moisture measurement", "moisture assessment",
  "moisture condition", "moisture distribution",
  "moisture meter", "resistance meter",
  "moisture-related", "moisture damage", "water ingress",
  "drying", "wetting", "hygroscopic"]

/-- ALL assessment task keywords combined (`ALL_ASSESSMENT_TASKS`). -/
def ALL_ASSESSMENT_TASKS : List String :=
  TASK_GEOMETRY ++ TASK_STRENGTH ++ TASK_DETERIORATION ++ TASK_DEFECTS ++ TASK_MOISTURE

/-- Circular economy / reuse focus (`CIRCULAR_STRICT`). -/
def CIRCULAR_STRICT : List String := [
  "circular construction", "circular economy building",
  "structural reuse", "component reuse", "element reuse",
  "building reuse", "material reuse",
  "deconstruction", "selective demolition",
  "design for disassembly",
  "reuse assessment", "reusability assessment"]

/-- STRICT exclusion keywords (`EXCLUSION_STRICT`). -/
def EXCLUSION_STRICT : List String := [
  "cancer", "tumor", "tumour", "patient", "clinical trial",
  "biomedical", "medical imaging", "cell culture", "pharmaceutical",
  "surgery", "hospital", "diagnosis patient", "therapy",
  "food quality", "fruit quality", "vegetable", "meat quality",
  "agricultural", "crop", "grain", "fish quality", "poultry",
  "aerospace", "aircraft", "wind turbine blade", "wind energy",
  "additive manufacturing", "semiconductor", "electronics",
  "battery", "lithium", "nuclear reactor", "pipeline weld",
  "seismic exploration", "oil reservoir", "petroleum",
  "mining exploration", "geological", "rock formation",
  "automotive", "vehicle", "car body", "engine component",
  "pavement", "asphalt", "road surface", "runway"]

/-- The per-exclusion-term running counters (`self.exclusion_stats`),
modelled as a total count function (a key absent from the Python dict
stands for count 0). -/
def ExclStats : Type := String → Nat

/-- `self.exclusion_stats[exclude] = self.exclusion_stats.get(exclude, 0) + 1`. -/
def updateStat (s : ExclStats) (e : String) : ExclStats :=
  fun k => if k = e then s k + 1 else s k

/-- `text = f"{title} {abstract}"` over the lower-cased
`paper.get("title") or ""` and `paper.get("abstract") or ""`. -/
def mkText (title abstract : Option String) : String :=
  strLower (title.getD "") ++ " " ++ strLower (abstract.getD "")

/-- The exclusion loop of `is_relevant` (lines 179-183): scan the
exclusion keywords in list order; on the first keyword occurring in the
text, bump its counter and report it. -/
def checkExclusions : List String → String → ExclStats → Option (String × ExclStats)
  | [], _, _ => none
  | e :: rest, text, s =>
      if containsSub text (strLower e) then some (e, updateStat s e)
      else checkExclusions rest text s

/-- Reason string of the accepted branch (lines 202-215): the
`tasks_found` list built by the five successive membership tests, then
`f"Tasks: {', '.join(tasks_found) if tasks_found else 'circular'}"`. -/
def taskReason (text : String) : String :=
  let tasks_found : List String :=
    (if anyKw TASK_GEOMETRY text then ["geometry"] else []) ++
    (if anyKw TASK_STRENGTH text then ["strength"] else []) ++
    (if anyKw TASK_DETERIORATION text then ["deterioration"] else []) ++
    (if anyKw TASK_DEFECTS text then ["defects"] else []) ++
    (if anyKw TASK_MOISTURE text then ["moisture"] else [])
  "Tasks: " ++ (if tasks_found.isEmpty then "circular" else String.intercalate ", " tasks_found)

/-- `RestrictedPaperSearcher.is_relevant` (lines 172-215).  It reads
only the `title` and `abstract` entries of the paper dict (either may
be absent or `None`, modelled by `Option String`), and mutates only
`self.exclusion_stats`, threaded here explicitly: the result pairs the
returned `(bool, reason)` with the updated counters. -/
def is_relevant (title abstract : Option String) (s : ExclStats) :
    (Bool × String) × ExclStats :=
  match checkExclusions EXCLUSION_STRICT (mkText title abstract) s with
  | some es => ((false, "Excluded: " ++ es.1), es.2)
  | none =>
    if anyKw NDT_METHODS_CORE (mkText title abstract) then
      if anyKw STRUCTURAL_MATERIALS (mkText title abstract) then
        if anyKw ALL_ASSESSMENT_TASKS (mkText title abstract) ||
           anyKw CIRCULAR_STRICT (mkText title abstract) then
          ((true, taskReason (mkText title abstract)), s)
        else ((false, "No assessment task or circular context"), s)
      else ((false, "No structural material"), s)
    else ((false, "No core NDT method"), s)

/-- The five task names paired with their keyword sets, in the order the
accepted branch of `is_relevant` tests them. -/
def TASK_TABLE : List (String × List String) :=
  [("geometry", TASK_GEOMETRY), ("strength", TASK_STRENGTH),
   ("deterioration", TASK_DETERIORATION), ("defects", TASK_DEFECTS),
   ("moisture", TASK_MOISTURE)]

/-- The task names whose keyword sets match the text (the specification
reading of the reason string: the listed names are exactly the matching
task categories). -/
def matchedTaskNames (text : String) : List String :=
  (TASK_TABLE.filter (fun nt => anyKw nt.2 text)).map Prod.fst

/-- A raw OpenAlex work record, holding exactly the fields the program
reads.  `Option` marks fields whose JSON value may be absent or null
(`authorships` entries model `authorship.get("author", {}).get("display_name")`);
`abstract_inverted_index` is the insertion-ordered word-to-positions map. -/
structure RawRecord where
  id : String
  title : Option String
  authorships : List (Option String)
  publication_year : Option Nat
  doi : Option String
  journalName : Option String
  abstract_inverted_index : Option (List (String × List Nat))
  cited_by_count : Nat
  type : String
  is_oa : Bool
deriving DecidableEq, Repr

/-- The parsed paper dict produced by `_parse_paper` (lines 408-420),
plus the `assessment_tasks` entry that `search` adds on acceptance. -/
structure Paper where
  title : String
  authors : String
  year : Option Nat
  doi : String
  journal : String
  abstract : String
  cited_by_count : Nat
  type : String
  open_access : Bool
  url : String
  openalex_id : String
  assessment_tasks : String := ""
deriving DecidableEq, Repr

/-- Abstract reconstruction (lines 397-406): `max_idx` is the largest
listed position, a word array of that length plus one is initialised
with empty strings, each word is written at each of its positions in
map order, and the array is joined with single spaces.  (The Python
`max` over the nonempty position lists agrees with the fold seeded with
0 because positions are naturals; `_parse_paper` only calls this when
every position list is nonempty.) -/
def reconstructAbstract (idx : List (String × List Nat)) : String :=
  let maxIdx := (idx.map (fun wp => wp.2.foldl Nat.max 0)).foldl Nat.max 0
  let words := idx.foldl (fun ws wp => wp.2.foldl (fun ws2 i => ws2.set i wp.1) ws)
                 (List.replicate (maxIdx + 1) "")
  String.intercalate " " words

/-- `RestrictedPaperSearcher._parse_paper` (lines 385-422).  `noneph`
models the `except Exception: return None` branch: the one structural
failure reachable in the typed model is the `ValueError` that
`max(max(indices) ...)` raises when a word of a nonempty inverted index
has an empty position list. -/
def _parse_paper (r : RawRecord) : Option Paper :=
  let authors := String.intercalate "; "
    (((r.authorships.filterMap id).filter (fun n => n ≠ "")).take 5)
  let journal := r.journalName.getD ""
  let doi := match r.doi with
    | some d => if d ≠ "" then d.replace "https://doi.org/" "" else ""
    | none => ""
  let url := match r.doi with
    | some d => if d ≠ "" then d else r.id
    | none => r.id
  let mkP : String → Paper := fun abstract =>
    { title := r.title.getD "", authors := authors, year := r.publication_year,
      doi := doi, journal := journal, abstract := abstract,
      cited_by_count := r.cited_by_count, type := r.type,
      open_access := r.is_oa, url := url, openalex_id := r.id }
  match r.abstract_inverted_index with
  | none => some (mkP "")
  | some idx =>
      if idx.isEmpty then some (mkP "")
      else if idx.any (fun wp => wp.2.isEmpty) then none
      else some (mkP (reconstructAbstract idx))

/-- The accumulators of `search`: the insertion-ordered accepted map
`all_results` (id to paper), the exclusion log `self.excluded` (pairs
of truncated title and reason), and the per-exclusion-term counters. -/
structure SearchState where
  all_results : List (String × Paper)
  excluded : List (String × String)
  exclusion_stats : ExclStats

/-- The empty accumulators a run starts from. -/
def emptyStats : ExclStats := fun _ => 0

/-- Fresh searcher state (`__init__`). -/
def initState : SearchState :=
  { all_results := [], excluded := [], exclusion_stats := emptyStats }

/-- The body of the per-paper loop of `search` (lines 341-360): skip
identifiers already in the accepted map, skip records whose parse
failed, classify the rest, storing accepted papers with the reason
attached as `assessment_tasks` and logging rejected ones. -/
def processRecord (s : SearchState) (r : RawRecord) : SearchState :=
  if (s.all_results.lookup r.id).isSome then s
  else
    match _parse_paper r with
    | none => s
    | some p =>
      let res := is_relevant (some p.title) (some p.abstract) s.exclusion_stats
      if res.1.1 then
        { all_results := s.all_results ++ [(r.id, { p with assessment_tasks := res.1.2 })],
          excluded := s.excluded,
          exclusion_stats := res.2 }
      else
        { all_results := s.all_results,
          excluded := s.excluded ++ [(p.title.take 60, res.1.2)],
          exclusion_stats := res.2 }

/-- A whole run of the per-paper loop over the stream of raw records
delivered by the paginated queries, flattened in arrival order (the
accumulators persist across query terms and pages). -/
def runSearch (s : SearchState) (records : List RawRecord) : SearchState :=
  records.foldl processRecord s

/-- The identified/filtered/excluded portion of the PRISMA statistics
dict (`generate_prisma_stats`, lines 492-494): `records_identified` is
`len(self.results) + len(self.excluded)` where `self.results` lists the
values of the accepted map. -/
structure PrismaStats where
  records_identified : Nat
  records_after_filtering : Nat
  excluded_count : Nat
deriving DecidableEq, Repr

/-- `generate_prisma_stats`, restricted to the three count fields the
claims are about. -/
def generate_prisma_stats (s : SearchState) : PrismaStats :=
  { records_identified := s.all_results.length + s.excluded.length,
    records_after_filtering := s.all_results.length,
    excluded_count := s.excluded.length }

/-- Split a character list at every separator character (Python
`str.split(sep)` for a one-character separator keeps empty pieces, and
`str.split()` is this with whitespace separators followed by dropping
empty pieces). -/
def splitChar (p : Char → Bool) : List Char → List (List Char)
  | [] => [[]]
  | c :: cs =>
    if p c then [] :: splitChar p cs
    else
      match splitChar p cs with
      | [] => [[c]]
      | t :: ts => (c :: t) :: ts

/-- Python `s.split()`: split on whitespace runs, dropping empties. -/
def pySplitWs (s : String) : List String :=
  ((splitChar Char.isWhitespace s.data).map String.mk).filter (fun t => t ≠ "")

/-- Python `s.split(";")`. -/
def pySplitSemi (s : String) : List String :=
  (splitChar (fun c => c == ';') s.data).map String.mk

/-- `paper["authors"].split(";")[0].split()[-1] if paper["authors"] else
"Unknown"` (line 438).  `none` models the `IndexError` raised by `[-1]`
when the first semicolon segment has no whitespace token. -/
def first_author (authors : String) : Option String :=
  if authors ≠ "" then (pySplitWs ((pySplitSemi authors).headD "")).getLast?
  else some "Unknown"

/-- Rendering of `paper['year']` inside an f-string (`None` for a
missing year). -/
def yearStr : Option Nat → String
  | some y => toString y
  | none => "None"

/-- `"".join(c for c in cite_key if c.isalnum() or c == "_")` (line 440). -/
def stripKey (k : String) : String :=
  String.mk (k.data.filter (fun c => c.isAlphanum || c == '_'))

/-- The opening and closing brace characters. -/
def lbrace : Char := Char.ofNat 123

/-- See `lbrace`. -/
def rbrace : Char := Char.ofNat 125

/-- Replace every occurrence of the character `pat` by the character
list `repl` (Python `str.replace` for a one-character pattern). -/
def replaceChar (pat : Char) (repl : List Char) (s : String) : String :=
  String.mk (s.data.foldr (fun c acc => if c = pat then repl ++ acc else c :: acc) [])

/-- Line 441: escape each brace of the title, first the opening braces,
then the closing ones. -/
def escapeTitle (t : String) : String :=
  replaceChar rbrace ['\\', rbrace] (replaceChar lbrace ['\\', lbrace] t)

/-- One `@article` entry of `export_to_bibtex` (lines 437-449) for the
paper at index `i`; `none` models the uncaught `IndexError` of
`first_author`. -/
def bibEntry (i : Nat) (p : Paper) : Option String :=
  (first_author p.authors).map (fun fa =>
    "@article\x7b" ++ stripKey (fa ++ yearStr p.year ++ "_" ++ toString i) ++
    ",\n  title = \x7b" ++ escapeTitle p.title ++
    "\x7d,\n  author = \x7b" ++ p.authors ++
    "\x7d,\n  year = \x7b" ++ yearStr p.year ++
    "\x7d,\n  journal = \x7b" ++ p.journal ++
    "\x7d,\n  doi = \x7b" ++ p.doi ++ "\x7d,\n\x7d")

/-- The `enumerate(self.results)` loop building the entry list from
index `i` on. -/
def bibEntriesFrom (i : Nat) : List Paper → Option (List String)
  | [] => some []
  | p :: rest =>
    match bibEntry i p with
    | none => none
    | some e => (bibEntriesFrom (i + 1) rest).map (fun es => e :: es)

/-- `export_to_bibtex`, modelled as the text written to the file
(`"\n\n".join(entries)`); the empty-results early return produces no
file and is modelled as the empty text. -/
def export_to_bibtex (results : List Paper) : Option String :=
  if results.isEmpty then some ""
  else (bibEntriesFrom 0 results).map (String.intercalate "\n\n")

/-- The claim-side surname: the last whitespace-separated token of the
first semicolon-separated author, or "Unknown" when the author string
is empty. -/
def surnameSpec (authors : String) : String :=
  if authors = "" then "Unknown"
  else (pySplitWs ((pySplitSemi authors).headD "")).getLastD ""

/-- The claim-side `@article` entry for the paper at index `i`: citation
key `<firstAuthorSurname><year>_<i>` with the non-alphanumeric,
non-underscore characters stripped, and the braces of the title
escaped. -/
def bibEntrySpec (i : Nat) (p : Paper) : String :=
  "@article\x7b" ++ stripKey (surnameSpec p.authors ++ yearStr p.year ++ "_" ++ toString i) ++
  ",\n  title = \x7b" ++ escapeTitle p.title ++
  "\x7d,\n  author = \x7b" ++ p.authors ++
  "\x7d,\n  year = \x7b" ++ yearStr p.year ++
  "\x7d,\n  journal = \x7b" ++ p.journal ++
  "\x7d,\n  doi = \x7b" ++ p.doi ++ "\x7d,\n\x7d"

/-- The claim-side entry list from index `i` on. -/
def bibSpecFrom (i : Nat) : List Paper → List String
  | [] => []
  | p :: rest => bibEntrySpec i p :: bibSpecFrom (i + 1) rest

/-- A paper on which the surname lookup is defined: the author string
is empty, or its first semicolon segment has a whitespace token. -/
def authorsOk (p : Paper) : Bool :=
  p.authors == "" || !(pySplitWs ((pySplitSemi p.authors).headD "")).isEmpty

/-- Concrete raw record: accepted with reason "Tasks: deterioration". -/
def recordUPV : RawRecord :=
  { id := "W1",
    title := some "Ultrasonic pulse velocity testing of reinforced concrete for corrosion assessment",
    authorships := [], publication_year := some 2020, doi := none,
    journalName := none, abstract_inverted_index := none,
    cited_by_count := 0, type := "article", is_oa := false }

/-- Concrete raw record with the same identifier as `recordUPV` but a
different (also acceptable) text, as if returned under a second query
term. -/
def recordEcho : RawRecord :=
  { recordUPV with
    title := some "Impact echo crack detection in a concrete bridge" }

/-- Concrete raw record whose inverted index has a word with an empty
position list, making `_parse_paper` fail structurally. -/
def recordBadIdx : RawRecord :=
  { recordUPV with
    id := "W2", title := some "Some malformed record",
    abstract_inverted_index := some [("word", [])] }

/-- Concrete raw record rejected by the exclusion stage ("cancer"). -/
def recordCancer : RawRecord :=
  { recordUPV with
    id := "W9", title := some "Cancer imaging of concrete structures" }

/-- Concrete raw record carrying the spec's example inverted index. -/
def recordInvIdx : RawRecord :=
  { recordUPV with
    id := "W5",
    abstract_inverted_index := some [("ultrasonic", [0, 3]), ("testing", [1])] }

/-- Concrete accepted paper exercising the BibTeX citation key: the
surname "Garcia-Lopez" contains a hyphen that the key strips. -/
def paperBib : Paper :=
  { title := "Assessment \x7bof\x7d existing structures",
    authors := "Maria Garcia-Lopez; John Smith", year := some 2020,
    doi := "10.1234/x", journal := "Structures", abstract := "",
    cited_by_count := 3, type := "article", open_access := true,
    url := "", openalex_id := "W8" }

set_option maxRecDepth 10000

/-! ## Helper lemmas -/

theorem updateStat_self (s : ExclStats) (e : String) : updateStat s e e = s e + 1 := by
  simp [updateStat]

theorem updateStat_other (s : ExclStats) (e k : String) (h : k ≠ e) :
    updateStat s e k = s k := by
  simp [updateStat, h]

theorem checkExclusions_some_of_match (L : List String) (text : String) (s : ExclStats)
    (h : ∃ e ∈ L, containsSub text (strLower e) = true) :
    ∃ e ∈ L, containsSub text (strLower e) = true ∧
      checkExclusions L text s = some (e, updateStat s e) := by
  induction L with
  | nil => rcases h with ⟨e, he, _⟩; cases he
  | cons a rest ih =>
    cases ha : containsSub text (strLower a) with
    | true =>
      exact ⟨a, List.mem_cons_self a rest, ha, by simp [checkExclusions, ha]⟩
    | false =>
      rcases h with ⟨e, he, hmatch⟩
      rcases List.mem_cons.mp he with rfl | hrest
      · rw [ha] at hmatch; cases hmatch
      · rcases ih ⟨e, hrest, hmatch⟩ with ⟨e2, he2, hm2, heq⟩
        exact ⟨e2, List.mem_cons_of_mem a he2, hm2, by simp [checkExclusions, ha, heq]⟩

theorem checkExclusions_none_of_no_match (L : List String) (text : String) (s : ExclStats)
    (h : ∀ e ∈ L, containsSub text (strLower e) = false) :
    checkExclusions L text s = none := by
  induction L with
  | nil => rfl
  | cons a rest ih =>
    have ha := h a (List.mem_cons_self a rest)
    simp only [checkExclusions, ha, Bool.false_eq_true, if_false]
    exact ih (fun e he => h e (List.mem_cons_of_mem a he))

theorem taskReason_eq_matchedTaskNames (text : String) :
    taskReason text =
      "Tasks: " ++ (if matchedTaskNames text = [] then "circular"
                    else String.intercalate ", " (matchedTaskNames text)) := by
  unfold taskReason matchedTaskNames TASK_TABLE
  cases hg : anyKw TASK_GEOMETRY text <;>
  cases hs : anyKw TASK_STRENGTH text <;>
  cases hd : anyKw TASK_DETERIORATION text <;>
  cases hf : anyKw TASK_DEFECTS text <;>
  cases hm : anyKw TASK_MOISTURE text <;>
  simp [hg, hs, hd, hf, hm]

/-! ## Claim theorems: the relevance classifier -/

/-- C1: if the lower-cased title-plus-abstract text contains an
exclusion keyword, `is_relevant` rejects with reason
`"Excluded: <term>"` for an exclusion keyword `<term>` present in the
text, regardless of whatever other keywords the text contains, and the
running counter of exactly that term is incremented by exactly one. -/
theorem exclusion_short_circuits (title abstract : Option String) (s : ExclStats)
    (h : ∃ e ∈ EXCLUSION_STRICT, containsSub (mkText title abstract) (strLower e) = true) :
    ∃ e ∈ EXCLUSION_STRICT, containsSub (mkText title abstract) (strLower e) = true ∧
      (is_relevant title abstract s).1 = (false, "Excluded: " ++ e) ∧
      (is_relevant title abstract s).2 e = s e + 1 ∧
      ∀ k, k ≠ e → (is_relevant title abstract s).2 k = s k := by
  rcases checkExclusions_some_of_match EXCLUSION_STRICT (mkText title abstract) s h with
    ⟨e, he, hm, heq⟩
  refine ⟨e, he, hm, ?_, ?_, ?_⟩
  · simp [is_relevant, heq]
  · simp [is_relevant, heq, updateStat_self]
  · intro k hk; simp [is_relevant, heq, updateStat_other s e k hk]

/-- Witness for C1: the text "Cancer imaging of concrete structures"
contains the exclusion keyword "cancer"; the classifier rejects it with
that keyword in the reason and counts it once. -/
theorem exclusion_short_circuits_witness :
    ∃ e ∈ EXCLUSION_STRICT,
      containsSub (mkText (some "Cancer imaging of concrete structures") none) (strLower e) = true ∧
      (is_relevant (some "Cancer imaging of concrete structures") none emptyStats).1 =
        (false, "Excluded: " ++ e) ∧
      (is_relevant (some "Cancer imaging of concrete structures") none emptyStats).2 e =
        emptyStats e + 1 ∧
      ∀ k, k ≠ e →
        (is_relevant (some "Cancer imaging of concrete structures") none emptyStats).2 k =
          emptyStats k :=
  exclusion_short_circuits (some "Cancer imaging of concrete structures") none emptyStats
    ⟨"cancer", by decide, by decide⟩

/-- C2: the reason of an accepted paper names exactly the task
categories whose keyword sets match the text — it is
`"Tasks: "` followed by the comma-joined list of precisely the matching
task names, or `"Tasks: circular"` when no task set matches. -/
theorem accepted_reason_lists_matched_tasks (title abstract : Option String) (s : ExclStats)
    (h : (is_relevant title abstract s).1.1 = true) :
    (is_relevant title abstract s).1.2 =
      "Tasks: " ++ (if matchedTaskNames (mkText title abstract) = [] then "circular"
                    else String.intercalate ", " (matchedTaskNames (mkText title abstract))) := by
  rw [← taskReason_eq_matchedTaskNames]
  rcases hchk : checkExclusions EXCLUSION_STRICT (mkText title abstract) s with _ | es
  · cases hndt : anyKw NDT_METHODS_CORE (mkText title abstract) <;>
    cases hmat : anyKw STRUCTURAL_MATERIALS (mkText title abstract) <;>
    cases htask : (anyKw ALL_ASSESSMENT_TASKS (mkText title abstract) ||
                   anyKw CIRCULAR_STRICT (mkText title abstract)) <;>
    simp [is_relevant, hchk, hndt, hmat, htask] at h ⊢
  · simp [is_relevant, hchk] at h

/-- Witness for C2: the accepted corrosion-assessment text gets the
reason determined by its matching task sets. -/
theorem accepted_reason_lists_matched_tasks_witness :
    (is_relevant
        (some "Ultrasonic pulse velocity testing of reinforced concrete for corrosion assessment")
        (some "") emptyStats).1.2 =
      "Tasks: " ++ (if matchedTaskNames (mkText
          (some "Ultrasonic pulse velocity testing of reinforced concrete for corrosion assessment")
          (some "")) = [] then "circular"
        else String.intercalate ", " (matchedTaskNames (mkText
          (some "Ultrasonic pulse velocity testing of reinforced concrete for corrosion assessment")
          (some "")))) :=
  accepted_reason_lists_matched_tasks
    (some "Ultrasonic pulse velocity testing of reinforced concrete for corrosion assessment")
    (some "") emptyStats (by decide)

/-- Counterexample to C3 as stated: this text lacks every NDT-method
keyword (and even contains a structural-material and a task keyword),
yet `is_relevant` rejects it with reason "Excluded: cancer", not with
"No core NDT method", because the exclusion stage runs first. -/
theorem no_ndt_unconditional_counterexample :
    anyKw NDT_METHODS_CORE
        (mkText (some "cancer detection in reinforced concrete compressive strength") none) = false ∧
    anyKw STRUCTURAL_MATERIALS
        (mkText (some "cancer detection in reinforced concrete compressive strength") none) = true ∧
    anyKw ALL_ASSESSMENT_TASKS
        (mkText (some "cancer detection in reinforced concrete compressive strength") none) = true ∧
    (is_relevant (some "cancer detection in reinforced concrete compressive strength") none
        emptyStats).1 = (false, "Excluded: cancer") ∧
    "Excluded: cancer" ≠ "No core NDT method" :=
  ⟨by decide, by decide, by decide, by decide, by decide⟩

/-- C3 (amended): for all text lacking any NDT-method keyword and
containing no exclusion keyword, `is_relevant` rejects with reason
"No core NDT method", even if material and task keywords are present. -/
theorem no_ndt_rejected (title abstract : Option String) (s : ExclStats)
    (hexcl : ∀ e ∈ EXCLUSION_STRICT, containsSub (mkText title abstract) (strLower e) = false)
    (hndt : anyKw NDT_METHODS_CORE (mkText title abstract) = false) :
    is_relevant title abstract s = ((false, "No core NDT method"), s) := by
  have hnone := checkExclusions_none_of_no_match EXCLUSION_STRICT (mkText title abstract) s hexcl
  simp [is_relevant, hnone, hndt]

/-- Witness for the amended C3: a material-and-task text without any
NDT-method or exclusion keyword is rejected for lack of an NDT method. -/
theorem no_ndt_rejected_witness :
    is_relevant (some "compressive strength of reinforced concrete structures") none emptyStats =
      ((false, "No core NDT method"), emptyStats) :=
  no_ndt_rejected (some "compressive strength of reinforced concrete structures") none emptyStats
    (by decide) (by decide)

/-- C6: the end-to-end scenario text is accepted and its reason
contains "deterioration". -/
theorem upv_corrosion_scenario :
    (is_relevant
        (some "Ultrasonic pulse velocity testing of reinforced concrete for corrosion assessment")
        (some "") emptyStats).1.1 = true ∧
    containsSub
      (is_relevant
        (some "Ultrasonic pulse velocity testing of reinforced concrete for corrosion assessment")
        (some "") emptyStats).1.2 "deterioration" = true :=
  ⟨by decide, by decide⟩

/-- C10: on a paper whose title and abstract are both absent or null,
`is_relevant` treats the fields as empty strings (the concatenated text
is a single space), leaves the counters untouched, and returns
`(False, "No core NDT method")`. -/
theorem missing_fields_no_ndt :
    ∀ s : ExclStats,
      is_relevant none none s = ((false, "No core NDT method"), s) ∧
      mkText none none = " " :=
  fun _ => ⟨rfl, rfl⟩

/-! ## Claim theorems: parser and search driver -/

/-- C5: the parser rebuilds the abstract by placing each word of the
inverted index at each of its listed positions and joining with single
spaces, leaving unlisted positions empty: on the index mapping
"ultrasonic" to positions 0 and 3 and "testing" to position 1, the
result is "ultrasonic testing  ultrasonic", with a double space at the
empty position 2. -/
theorem abstract_reconstruction_example :
    reconstructAbstract [("ultrasonic", [0, 3]), ("testing", [1])] =
      "ultrasonic testing  ultrasonic" ∧
    (_parse_paper recordInvIdx).map Paper.abstract =
      some "ultrasonic testing  ultrasonic" :=
  ⟨by decide, by decide⟩

/-- C7: when parsing fails structurally, `_parse_paper` returns `none`
instead of propagating, and the driver skips the record entirely — the
whole accumulator state (accepted map, exclusion log, per-term
counters) is unchanged, so the classifier was never consulted. -/
theorem parse_failure_skips_record (s : SearchState) (r : RawRecord)
    (h : _parse_paper r = none) : processRecord s r = s := by
  unfold processRecord
  cases hmem : (s.all_results.lookup r.id).isSome <;> simp [hmem, h]

/-- Witness for C7: a record whose inverted index lists a word with no
positions fails to parse, and processing it leaves the fresh state
untouched. -/
theorem parse_failure_skips_record_witness :
    _parse_paper recordBadIdx = none ∧
    processRecord initState recordBadIdx = initState :=
  ⟨rfl, parse_failure_skips_record initState recordBadIdx rfl⟩

theorem lookup_append_left (l l2 : List (String × Paper)) (k : String) (v : Paper)
    (h : l.lookup k = some v) : (l ++ l2).lookup k = some v := by
  induction l with
  | nil => simp [List.lookup] at h
  | cons a t ih =>
    rcases a with ⟨k1, v1⟩
    cases hk : (k == k1) <;> simp [List.lookup, hk] at h ⊢
    · exact ih h
    · exact h

theorem processRecord_preserves_lookup (s : SearchState) (r : RawRecord) (k : String)
    (v : Paper) (h : s.all_results.lookup k = some v) :
    (processRecord s r).all_results.lookup k = some v := by
  unfold processRecord
  cases hmem : (s.all_results.lookup r.id).isSome
  · cases hp : _parse_paper r with
    | none => simpa [hmem, hp] using h
    | some p =>
      cases hinc : (is_relevant (some p.title) (some p.abstract) s.exclusion_stats).1.1 <;>
        simp [hmem, hp, hinc]
      · exact h
      · exact lookup_append_left _ _ k v h
  · simpa [hmem] using h

theorem runSearch_preserves_lookup (records : List RawRecord) (s : SearchState)
    (k : String) (v : Paper) (h : s.all_results.lookup k = some v) :
    (runSearch s records).all_results.lookup k = some v := by
  induction records generalizing s with
  | nil => exact h
  | cons r rest ih =>
    exact ih (processRecord s r) (processRecord_preserves_lookup s r k v h)

theorem not_mem_keys_of_lookup_isSome_false (l : List (String × Paper)) (k : String)
    (h : (l.lookup k).isSome = false) : k ∉ l.map Prod.fst := by
  induction l with
  | nil => simp
  | cons a t ih =>
    rcases a with ⟨k1, v1⟩
    cases hk : (k == k1)
    · have h2 : (List.lookup k t).isSome = false := by
        rw [List.lookup] at h
        simpa [hk] using h
      simp only [List.map_cons, List.mem_cons]
      push_neg
      exact ⟨by simpa using hk, ih h2⟩
    · exfalso
      rw [List.lookup] at h
      simp [hk] at h

theorem processRecord_keys_nodup (s : SearchState) (r : RawRecord)
    (h : (s.all_results.map Prod.fst).Nodup) :
    ((processRecord s r).all_results.map Prod.fst).Nodup := by
  unfold processRecord
  cases hmem : (s.all_results.lookup r.id).isSome
  · cases hp : _parse_paper r with
    | none => simpa [hmem, hp] using h
    | some p =>
      cases hinc : (is_relevant (some p.title) (some p.abstract) s.exclusion_stats).1.1 <;>
        simp only [hmem, hp, hinc, Bool.false_eq_true, if_false, if_true]
      · exact h
      · rw [List.map_append]
        exact List.Nodup.append h (List.nodup_singleton _)
          (by simpa [List.disjoint_singleton] using
            not_mem_keys_of_lookup_isSome_false s.all_results r.id hmem)
  · simpa [hmem] using h

theorem runSearch_keys_nodup (records : List RawRecord) (s : SearchState)
    (h : (s.all_results.map Prod.fst).Nodup) :
    ((runSearch s records).all_results.map Prod.fst).Nodup := by
  induction records generalizing s with
  | nil => exact h
  | cons r rest ih =>
    exact ih (processRecord s r) (processRecord_keys_nodup s r h)

/-- C4: over any stream of raw records, each source identifier occurs
at most once as a key of the accepted map, and once an identifier has
an entry (carrying the reason under which its classification first
succeeded) the entry is unchanged by all later records — in particular
by occurrences of the same identifier under later query terms. -/
theorem accepted_map_deduplicates (records : List RawRecord) :
    ((runSearch initState records).all_results.map Prod.fst).Nodup ∧
    ∀ pre post, records = pre ++ post → ∀ id,
      ((runSearch initState pre).all_results.lookup id).isSome = true →
      (runSearch initState records).all_results.lookup id =
        (runSearch initState pre).all_results.lookup id := by
  constructor
  · exact runSearch_keys_nodup records initState (by simp [initState])
  · rintro pre post rfl id hs
    rcases Option.isSome_iff_exists.mp hs with ⟨v, hv⟩
    rw [hv, runSearch, List.foldl_append]
    exact runSearch_preserves_lookup post (runSearch initState pre) id v hv

/-- Witness for C4: the same identifier "W1" arriving under two query
terms (with different acceptable texts) yields one entry, the one the
first term produced. -/
theorem accepted_map_deduplicates_witness :
    ((runSearch initState [recordUPV, recordEcho]).all_results.map Prod.fst).Nodup ∧
    (runSearch initState [recordUPV, recordEcho]).all_results.lookup "W1" =
      (runSearch initState [recordUPV]).all_results.lookup "W1" :=
  ⟨(accepted_map_deduplicates [recordUPV, recordEcho]).1,
   (accepted_map_deduplicates [recordUPV, recordEcho]).2 [recordUPV] [recordEcho] rfl "W1"
     (by decide)⟩

/-- C9: deduplication consults only the accepted map, so a record
rejected under one query term is parsed and classified again when the
same identifier arrives under a later term: feeding the same rejected
record twice leaves the accepted map empty but logs two exclusion
entries, counts the exclusion term twice, and counts the identifier
twice in the `records_identified` and `excluded_count` totals. -/
theorem rejected_records_not_deduplicated :
    (runSearch initState [recordCancer, recordCancer]).all_results = [] ∧
    (runSearch initState [recordCancer, recordCancer]).excluded =
      [("Cancer imaging of concrete structures", "Excluded: cancer"),
       ("Cancer imaging of concrete structures", "Excluded: cancer")] ∧
    (runSearch initState [recordCancer, recordCancer]).exclusion_stats "cancer" = 2 ∧
    generate_prisma_stats (runSearch initState [recordCancer, recordCancer]) =
      { records_identified := 2, records_after_filtering := 0, excluded_count := 2 } :=
  ⟨by decide, by decide, by decide, by decide⟩

/-! ## Claim theorems: BibTeX export -/

theorem getLast?_eq_getLastD (l : List String) (h : l ≠ []) :
    l.getLast? = some (l.getLastD "") := by
  induction l with
  | nil => cases h rfl
  | cons a t ih =>
    cases t with
    | nil => rfl
    | cons b t2 =>
      rw [List.getLast?_cons_cons, List.getLastD_cons]
      exact ih (by simp)

theorem bibEntry_eq_spec (i : Nat) (p : Paper) (h : authorsOk p = true) :
    bibEntry i p = some (bibEntrySpec i p) := by
  unfold bibEntry bibEntrySpec first_author surnameSpec
  by_cases ha : p.authors = ""
  · simp [ha]
  · have h2 : pySplitWs ((pySplitSemi p.authors).headD "") ≠ [] := by
      unfold authorsOk at h
      rcases Bool.or_eq_true_iff.mp h with h3 | h3
      · exact absurd (by simpa using h3) ha
      · simpa using h3
    rw [if_pos ha, if_neg ha, getLast?_eq_getLastD _ h2]
    rfl

theorem bibEntriesFrom_eq_spec (l : List Paper) (i : Nat)
    (h : ∀ p ∈ l, authorsOk p = true) :
    bibEntriesFrom i l = some (bibSpecFrom i l) := by
  induction l generalizing i with
  | nil => rfl
  | cons p rest ih =>
    rw [bibEntriesFrom, bibSpecFrom, bibEntry_eq_spec i p (h p (List.mem_cons_self p rest)),
      ih (i + 1) (fun q hq => h q (List.mem_cons_of_mem p hq))]
    rfl

/-- C8: on any accepted-results list all of whose papers have a
well-defined first-author surname (the author string is empty, or its
first semicolon segment has a whitespace token — otherwise the Python
code raises an uncaught IndexError), `export_to_bibtex` emits one
`@article` entry per paper, the entry at index `i` having citation key
`<firstAuthorSurname><year>_<i>` (surname = last whitespace token of
the first semicolon-separated author, "Unknown" for an empty author
string) stripped of every character that is neither alphanumeric nor
the underscore of the template, with every brace of the title escaped. -/
theorem bibtex_entries_shape (results : List Paper)
    (h : ∀ p ∈ results, authorsOk p = true) :
    export_to_bibtex results =
      some (String.intercalate "\n\n" (bibSpecFrom 0 results)) := by
  unfold export_to_bibtex
  cases results with
  | nil => rfl
  | cons p rest =>
    rw [bibEntriesFrom_eq_spec _ 0 h]
    rfl

/-- Witness for C8: a one-paper list whose author "Maria Garcia-Lopez"
produces the stripped citation key (`GarciaLopez2020_0`) and whose
braced title is escaped. -/
theorem bibtex_entries_shape_witness :
    export_to_bibtex [paperBib] =
      some (String.intercalate "\n\n" (bibSpecFrom 0 [paperBib])) :=
  bibtex_entries_shape [paperBib] (by decide)

end LitSearch
